import Mathlib

/-!
Shallow embedding of the core of `auto-clock-speed` (`src/cpu.rs`, with the
utilization calculator of the missing `src/system.rs` modelled from the spec).

File I/O is modelled by an explicit environment (`FS`) of pure functions:
the content behind a readable path, whether a path exists, and the outcomes
of `File::create` and `write`.  Rust `Result<α, Error>` values together with
the possibility of a `panic!`/`.unwrap()` crash are modelled by `Res α`,
which separates a typed error (`err`) from a panic (`panicked`).  Panic
payloads keep the recognisable prefix of the Rust message (the formatted
inner error value is abstracted to the OS/parse error string supplied by the
environment).  Methods taking `&mut self` are modelled by explicit state
passing: they return the result paired with the updated `CPU`; since Rust
field assignments before a panic do persist in the `&mut` receiver, the
state component is threaded through the panic case as well.
-/

/-- Modelled from the spec: the crate-level `Error` type (from a module not
under `src/`).  The spec's taxonomy (§7) names `IoError`, carrying the
underlying OS error, and `ParseError` for non-integer content. -/
inductive Error where
  | ioError (os : String)
  | parseError (msg : String)
deriving DecidableEq, Repr

/-- Outcome of a Rust computation: a value, a typed `Err`, or a panic. -/
inductive Res (α : Type) where
  | ok : α → Res α
  | err : Error → Res α
  | panicked : String → Res α
deriving DecidableEq, Repr

/-- The file-system environment seen by one run: content of readable paths,
path existence, and the outcomes of `File::create` and of writing.  `Except`
errors carry the underlying OS error string. -/
structure FS where
  pathPresent : String → Bool
  openFile : String → Except String String
  createFile : String → Except String Unit
  writeFile : String → String → Except String Unit

/-- Value of a nonempty all-digit character list, base 10. -/
def digitsVal (cs : List Char) : Option Nat :=
  match cs with
  | [] => none
  | _ =>
    cs.foldl
      (fun acc c =>
        match acc with
        | none => none
        | some a => if c.isDigit then some (a * 10 + (c.toNat - 48)) else none)
      (some 0)

/-- Rust `str::parse::<i32>`: optional sign, one or more ASCII digits, and
the value must fit in the `i32` range. -/
def parseI32 (s : String) : Option Int :=
  match s.data with
  | '+' :: rest =>
    match digitsVal rest with
    | some n => if n ≤ 2147483647 then some (n : Int) else none
    | none => none
  | '-' :: rest =>
    match digitsVal rest with
    | some n => if n ≤ 2147483648 then some (-(n : Int)) else none
    | none => none
  | cs =>
    match digitsVal cs with
    | some n => if n ≤ 2147483647 then some (n : Int) else none
    | none => none

/-- Rust `String::pop`: remove the last character (the source comments call
it "Remove newline", but the last character is removed whatever it is). -/
def popLast (s : String) : String :=
  ⟨s.data.dropLast⟩

/-- Fuel-bounded core of `str::replace`; every step consumes at least one
character, so `cs.length` fuel always suffices. -/
def replaceCharsAux (fuel : Nat) (cs pat rep : List Char) : List Char :=
  match fuel, cs with
  | 0, cs => cs
  | _, [] => []
  | fuel + 1, c :: rest =>
    if pat ≠ [] ∧ (c :: rest).take pat.length = pat then
      rep ++ replaceCharsAux fuel ((c :: rest).drop pat.length) pat rep
    else
      c :: replaceCharsAux fuel rest pat rep

/-- Rust `str::replace` on character lists: replace every non-overlapping
occurrence of `pat` by `rep`, scanning left to right.  (The empty pattern
never occurs in the program; here it replaces nothing.) -/
def replaceChars (cs pat rep : List Char) : List Char :=
  replaceCharsAux cs.length cs pat rep

/-- Rust `str::replace` lifted to `String`. -/
def stringReplace (s pat rep : String) : String :=
  ⟨replaceChars s.data pat.data rep.data⟩

/-- The path `format!("/sys/devices/system/cpu/{}/{}", name, sub_path)`. -/
def cpu_info_path (name sub_path : String) : String :=
  "/sys/devices/system/cpu/" ++ name ++ "/" ++ sub_path

/-- The path `format!("/sys/class/thermal/{}/{}", name.replace("cpu", "thermal_zone"), sub_path)`. -/
def thermal_info_path (name sub_path : String) : String :=
  "/sys/class/thermal/" ++ stringReplace name "cpu" "thermal_zone" ++ "/" ++ sub_path

/-- The `CPU` struct of `src/cpu.rs`.  `f32` usage is modelled over `ℚ`. -/
structure CPU where
  name : String
  number : Int
  max_freq : Int
  min_freq : Int
  cur_freq : Int
  cur_temp : Int
  cur_usage : ℚ
  gov : String
deriving DecidableEq, Repr

/-- The `WritableValue` enum of `src/cpu.rs`. -/
inductive WritableValue where
  | Min
  | Max
  | Gov
deriving DecidableEq, Repr

/-- Rust `CPU::read_int`: open the cpufreq pseudo-file (`.unwrap()` panics on an
open failure), read it, pop the last character, and parse as `i32`,
panicking with "Could not parse {sub_path}" on a parse failure. -/
def read_int (fs : FS) (cpu : CPU) (sub_path : String) : Res Int :=
  match fs.openFile (cpu_info_path cpu.name sub_path) with
  | .error e => .panicked e
  | .ok info =>
    match parseI32 (popLast info) with
    | some n => .ok n
    | none => .panicked ("Could not parse " ++ sub_path)

/-- Rust `CPU::read_str`: like `read_int` but returns the popped string. -/
def read_str (fs : FS) (cpu : CPU) (sub_path : String) : Res String :=
  match fs.openFile (cpu_info_path cpu.name sub_path) with
  | .error e => .panicked e
  | .ok info => .ok (popLast info)

/-- Rust `CPU::read_temp`: derive the thermal-zone path; return `Ok(-1)` when it
does not exist; otherwise open it (`?` turns an I/O failure into a typed
error), pop the last character, and parse (panicking on a parse failure). -/
def read_temp (fs : FS) (cpu : CPU) (sub_path : String) : Res Int :=
  let p := thermal_info_path cpu.name sub_path
  if fs.pathPresent p = false then
    .ok (-1)
  else
    match fs.openFile p with
    | .error e => .err (.ioError e)
    | .ok info =>
      match parseI32 (popLast info) with
      | some n => .ok n
      | none => .panicked ("Could not parse " ++ sub_path)

/-- The `sub_path` chosen by the `match value` in `CPU::write_value`. -/
def write_sub_path : WritableValue → String
  | .Max => "cpufreq/scaling_max_freq"
  | .Min => "cpufreq/scaling_min_freq"
  | .Gov => "cpufreq/scaling_governor"

/-- The `to_write` payload chosen by the `match value` in `CPU::write_value`:
the field's string representation (`to_string`), with no newline appended. -/
def write_payload (cpu : CPU) : WritableValue → String
  | .Max => toString cpu.max_freq
  | .Min => toString cpu.min_freq
  | .Gov => cpu.gov

/-- Rust `CPU::write_value`: pick the sub-path and payload from the enum, then
`File::create` and `write`, with `?` turning either I/O failure into a typed
error. -/
def write_value (fs : FS) (cpu : CPU) (value : WritableValue) : Res Unit :=
  let path := cpu_info_path cpu.name (write_sub_path value)
  match fs.createFile path with
  | .error e => .err (.ioError e)
  | .ok _ =>
    match fs.writeFile path (write_payload cpu value) with
    | .error e => .err (.ioError e)
    | .ok _ => .ok ()

/-- Rust `CPU::get_max`: `self.max_freq = self.read_int("cpufreq/scaling_max_freq")`. -/
def get_max (fs : FS) (cpu : CPU) : Res Unit × CPU :=
  match read_int fs cpu "cpufreq/scaling_max_freq" with
  | .ok n => (.ok (), { cpu with max_freq := n })
  | .err e => (.err e, cpu)
  | .panicked m => (.panicked m, cpu)

/-- Rust `CPU::get_min`. -/
def get_min (fs : FS) (cpu : CPU) : Res Unit × CPU :=
  match read_int fs cpu "cpufreq/scaling_min_freq" with
  | .ok n => (.ok (), { cpu with min_freq := n })
  | .err e => (.err e, cpu)
  | .panicked m => (.panicked m, cpu)

/-- Rust `CPU::get_cur`. -/
def get_cur (fs : FS) (cpu : CPU) : Res Unit × CPU :=
  match read_int fs cpu "cpufreq/scaling_cur_freq" with
  | .ok n => (.ok (), { cpu with cur_freq := n })
  | .err e => (.err e, cpu)
  | .panicked m => (.panicked m, cpu)

/-- Rust `CPU::get_temp`: `self.cur_temp = self.read_temp("temp")?`. -/
def get_temp (fs : FS) (cpu : CPU) : Res Unit × CPU :=
  match read_temp fs cpu "temp" with
  | .ok n => (.ok (), { cpu with cur_temp := n })
  | .err e => (.err e, cpu)
  | .panicked m => (.panicked m, cpu)

/-- Rust `CPU::get_gov`: `self.gov = self.read_str("cpufreq/scaling_governor")`;
`read_str` cannot return a typed error, so neither can `get_gov`. -/
def get_gov (fs : FS) (cpu : CPU) : Res Unit × CPU :=
  match read_str fs cpu "cpufreq/scaling_governor" with
  | .ok s => (.ok (), { cpu with gov := s })
  | .err e => (.err e, cpu)
  | .panicked m => (.panicked m, cpu)

/-- Sequencing of two statements on `&mut self`: the second runs only when
the first neither returned early (`?`) nor panicked. -/
def andThen (r : Res Unit × CPU) (f : CPU → Res Unit × CPU) : Res Unit × CPU :=
  match r with
  | (.ok _, c) => f c
  | other => other

/-- Rust `CPU::update`: `get_max(); get_min(); get_cur(); get_temp()?; get_gov()?`. -/
def update (fs : FS) (cpu : CPU) : Res Unit × CPU :=
  andThen (andThen (andThen (andThen (get_max fs cpu) (get_min fs)) (get_cur fs)) (get_temp fs)) (get_gov fs)

/-- Rust `CPU::init_cpu`: `self.update()?; Ok(())`. -/
def init_cpu (fs : FS) (cpu : CPU) : Res Unit × CPU :=
  match update fs cpu with
  | (.ok _, c) => (.ok (), c)
  | other => other

/-- Rust `CPU::set_max`: assign `self.max_freq = max`, then write through. -/
def set_max (fs : FS) (cpu : CPU) (max : Int) : Res Unit × CPU :=
  let c := { cpu with max_freq := max }
  match write_value fs c WritableValue.Max with
  | .ok _ => (.ok (), c)
  | .err e => (.err e, c)
  | .panicked m => (.panicked m, c)

/-- Rust `CPU::set_min`: assign `self.min_freq = min`, then write through. -/
def set_min (fs : FS) (cpu : CPU) (min : Int) : Res Unit × CPU :=
  let c := { cpu with min_freq := min }
  match write_value fs c WritableValue.Min with
  | .ok _ => (.ok (), c)
  | .err e => (.err e, c)
  | .panicked m => (.panicked m, c)

/-- Rust `CPU::set_gov`: assign `self.gov = gov.clone()`, then write through. -/
def set_gov (fs : FS) (cpu : CPU) (gov : String) : Res Unit × CPU :=
  let c := { cpu with gov := gov }
  match write_value fs c WritableValue.Gov with
  | .ok _ => (.ok (), c)
  | .err e => (.err e, c)
  | .panicked m => (.panicked m, c)

/-- Modelled from the spec: the `ProcStat` snapshot of the missing
`src/system.rs` — one read of the cumulative per-state jiffie counters
(user, nice, system, idle, iowait, irq, softirq, steal), all non-negative
integers (§3 "System Snapshot"). -/
structure ProcStat where
  user : Nat
  nice : Nat
  system : Nat
  idle : Nat
  iowait : Nat
  irq : Nat
  softirq : Nat
  steal : Nat
deriving DecidableEq, Repr

/-- Sum of all categories of a snapshot. -/
def ProcStat.total (p : ProcStat) : Nat :=
  p.user + p.nice + p.system + p.idle + p.iowait + p.irq + p.softirq + p.steal

/-- Modelled from the spec: `calculate_cpu_percent` of the missing
`src/system.rs` (§4.3): `idle_delta = current.idle − previous.idle`,
`total_delta = Σ current − Σ previous`; if `total_delta ≤ 0` report `0.0`,
otherwise `100 × (1 − idle_delta / total_delta)` clamped to `[0, 100]`.
The `f32` arithmetic is modelled exactly over `ℚ`. -/
def calculate_cpu_percent (last current : ProcStat) : ℚ :=
  let idle_delta : Int := (current.idle : Int) - (last.idle : Int)
  let total_delta : Int := (current.total : Int) - (last.total : Int)
  if total_delta ≤ 0 then 0
  else max 0 (min 100 (100 * (1 - (idle_delta : ℚ) / (total_delta : ℚ))))

/-- Rust `CPU::update_usage`: assign `cur_usage` from the calculator; `Ok(())`. -/
def update_usage (cpu : CPU) (last_proc current_proc : ProcStat) : Res Unit × CPU :=
  (.ok (), { cpu with cur_usage := calculate_cpu_percent last_proc current_proc })

/-- Returns `true` exactly on the typed-`Err` outcome (the `Result::Err` arm of the
Rust `Result`), `false` on a value or a panic. -/
def Res.isErr {α : Type} : Res α → Bool
  | .err _ => true
  | _ => false

/-- A CPU entity as freshly constructed, used for concrete evaluations. -/
def cpu0 : CPU :=
  { name := "cpu0", number := 0, max_freq := 0, min_freq := 0, cur_freq := 0,
    cur_temp := 0, cur_usage := 0, gov := "powersave" }

/-- Environment whose every readable file holds the non-numeric text "abc\n". -/
def fsParseBad : FS :=
  { pathPresent := fun _ => true
    openFile := fun _ => .ok "abc\n"
    createFile := fun _ => .ok ()
    writeFile := fun _ _ => .ok () }

/-- Environment where nothing exists: opens fail with ENOENT and creates
fail with EACCES. -/
def fsNoFile : FS :=
  { pathPresent := fun _ => false
    openFile := fun _ => .error "No such file or directory (os error 2)"
    createFile := fun _ => .error "Permission denied (os error 13)"
    writeFile := fun _ _ => .error "Permission denied (os error 13)" }

/-- Environment where files open and create fine but the kernel rejects
every write (e.g. an unsupported governor). -/
def fsWriteRejected : FS :=
  { pathPresent := fun _ => true
    openFile := fun _ => .ok "1000000\n"
    createFile := fun _ => .ok ()
    writeFile := fun _ _ => .error "Invalid argument (os error 22)" }

/-- Fully healthy environment: every read yields "1000000\n", writes succeed. -/
def fsGood : FS :=
  { pathPresent := fun _ => true
    openFile := fun _ => .ok "1000000\n"
    createFile := fun _ => .ok ()
    writeFile := fun _ _ => .ok () }

/-- Environment where cpufreq reads succeed but opening the cpu0 thermal
zone (which exists) fails with EBUSY. -/
def fsTempErr : FS :=
  { pathPresent := fun _ => true
    openFile := fun p =>
      if p = thermal_info_path "cpu0" "temp" then
        .error "Device or resource busy (os error 16)"
      else .ok "1000000\n"
    createFile := fun _ => .ok ()
    writeFile := fun _ _ => .ok () }

/-- Environment where every read yields "42\n" except the cpu0 governor
file, whose open fails with EIO. -/
def fsGovErr : FS :=
  { pathPresent := fun _ => true
    openFile := fun p =>
      if p = cpu_info_path "cpu0" "cpufreq/scaling_governor" then
        .error "Input output error (os error 5)"
      else .ok "42\n"
    createFile := fun _ => .ok ()
    writeFile := fun _ _ => .ok () }

/-- Environment whose every readable file holds "abc" with no trailing
newline. -/
def fsNoNewline : FS :=
  { pathPresent := fun _ => true
    openFile := fun _ => .ok "abc"
    createFile := fun _ => .ok ()
    writeFile := fun _ _ => .ok () }

example : stringReplace "cpu0" "cpu" "thermal_zone" = "thermal_zone0" := by decide
example : parseI32 "-12" = some (-12) := by decide
example : parseI32 "abc" = none := by decide
example : parseI32 "" = none := by decide
example : popLast "abc\n" = "abc" := by decide
example : calculate_cpu_percent ⟨100, 0, 50, 850, 0, 0, 0, 0⟩ ⟨150, 0, 80, 870, 0, 0, 0, 0⟩ = 80 := by
  norm_num [calculate_cpu_percent, ProcStat.total, min_def, max_def]

/-- The read functions depend on the entity only through its `name`. -/
theorem read_int_name_only (fs : FS) (a b : CPU) (sub_path : String) (h : a.name = b.name) :
    read_int fs a sub_path = read_int fs b sub_path := by
  simp [read_int, h]

/-- Function `read_str` depends on the entity only through its `name`. -/
theorem read_str_name_only (fs : FS) (a b : CPU) (sub_path : String) (h : a.name = b.name) :
    read_str fs a sub_path = read_str fs b sub_path := by
  simp [read_str, h]

/-- Function `read_temp` depends on the entity only through its `name`. -/
theorem read_temp_name_only (fs : FS) (a b : CPU) (sub_path : String) (h : a.name = b.name) :
    read_temp fs a sub_path = read_temp fs b sub_path := by
  simp [read_temp, h]

/-- Any predicate on the state holding after the first statement and
preserved by the second holds after their sequencing. -/
theorem andThen_pres (P : CPU → Prop) (r : Res Unit × CPU) (f : CPU → Res Unit × CPU)
    (h1 : P r.2) (h2 : ∀ c, P c → P (f c).2) : P (andThen r f).2 := by
  rcases r with ⟨r1, c⟩
  cases r1 with
  | ok u => exact h2 c h1
  | err e => exact h1
  | panicked m => exact h1

/-- Function `get_max` only touches `max_freq`. -/
theorem get_max_keeps (fs : FS) (c : CPU) :
    (get_max fs c).2.name = c.name ∧ (get_max fs c).2.number = c.number := by
  cases h : read_int fs c "cpufreq/scaling_max_freq" <;> simp [get_max, h]

/-- Function `get_min` only touches `min_freq`. -/
theorem get_min_keeps (fs : FS) (c : CPU) :
    (get_min fs c).2.name = c.name ∧ (get_min fs c).2.number = c.number := by
  cases h : read_int fs c "cpufreq/scaling_min_freq" <;> simp [get_min, h]

/-- Function `get_cur` only touches `cur_freq`. -/
theorem get_cur_keeps (fs : FS) (c : CPU) :
    (get_cur fs c).2.name = c.name ∧ (get_cur fs c).2.number = c.number := by
  cases h : read_int fs c "cpufreq/scaling_cur_freq" <;> simp [get_cur, h]

/-- Function `get_temp` only touches `cur_temp`. -/
theorem get_temp_keeps (fs : FS) (c : CPU) :
    (get_temp fs c).2.name = c.name ∧ (get_temp fs c).2.number = c.number := by
  cases h : read_temp fs c "temp" <;> simp [get_temp, h]

/-- Function `get_gov` only touches `gov`. -/
theorem get_gov_keeps (fs : FS) (c : CPU) :
    (get_gov fs c).2.name = c.name ∧ (get_gov fs c).2.number = c.number := by
  cases h : read_str fs c "cpufreq/scaling_governor" <;> simp [get_gov, h]

/-- C1: the utilization calculator returns 0 whenever the total delta is
non-positive, otherwise 100 × (1 − idle_delta / total_delta) clamped to
[0, 100]; on the spec's concrete scenario it returns exactly 80. -/
theorem C1_utilization_formula :
    (∀ prev cur : ProcStat, (cur.total : Int) - (prev.total : Int) ≤ 0 →
        calculate_cpu_percent prev cur = 0) ∧
    (∀ prev cur : ProcStat, 0 < (cur.total : Int) - (prev.total : Int) →
        calculate_cpu_percent prev cur =
          max 0 (min 100 (100 * (1 -
            ((cur.idle : ℚ) - (prev.idle : ℚ)) / ((cur.total : ℚ) - (prev.total : ℚ)))))) ∧
    calculate_cpu_percent ⟨100, 0, 50, 850, 0, 0, 0, 0⟩ ⟨150, 0, 80, 870, 0, 0, 0, 0⟩ = 80 := by
  refine ⟨?_, ?_, ?_⟩
  · intro prev cur h
    simp only [calculate_cpu_percent]
    rw [if_pos h]
  · intro prev cur h
    simp only [calculate_cpu_percent]
    rw [if_neg (not_le.mpr h)]
    push_cast
    ring_nf
  · norm_num [calculate_cpu_percent, ProcStat.total, min_def, max_def]

/-- Witness for C1 at the spec's two concrete scenarios. -/
theorem C1_utilization_formula_witness :
    calculate_cpu_percent ⟨5, 5, 5, 5, 5, 5, 5, 5⟩ ⟨5, 5, 5, 5, 5, 5, 5, 5⟩ = 0 ∧
    calculate_cpu_percent ⟨100, 0, 50, 850, 0, 0, 0, 0⟩ ⟨150, 0, 80, 870, 0, 0, 0, 0⟩ =
      max 0 (min 100 (100 * (1 -
        (((870 : Nat) : ℚ) - ((850 : Nat) : ℚ)) /
          (((1100 : Nat) : ℚ) - ((1000 : Nat) : ℚ))))) := by
  constructor
  · exact C1_utilization_formula.1 _ _ (by norm_num [ProcStat.total])
  · have h := C1_utilization_formula.2.1 ⟨100, 0, 50, 850, 0, 0, 0, 0⟩
      ⟨150, 0, 80, 870, 0, 0, 0, 0⟩ (by norm_num [ProcStat.total])
    simpa [ProcStat.total] using h

/-- C2: under a non-decreasing total the utilization lies in [0, 100], and
an unchanged idle counter with a strictly increasing total yields 100. -/
theorem C2_utilization_bounds :
    (∀ prev cur : ProcStat, prev.total ≤ cur.total →
        0 ≤ calculate_cpu_percent prev cur ∧ calculate_cpu_percent prev cur ≤ 100) ∧
    (∀ prev cur : ProcStat, cur.idle = prev.idle → prev.total < cur.total →
        calculate_cpu_percent prev cur = 100) := by
  constructor
  · intro prev cur _
    simp only [calculate_cpu_percent]
    split_ifs with h
    · norm_num
    · exact ⟨le_max_left 0 _, max_le (by norm_num) (min_le_left _ _)⟩
  · intro prev cur hidle htot
    simp only [calculate_cpu_percent]
    rw [if_neg (by omega), hidle]
    simp

/-- Witness for C2 on concrete snapshots. -/
theorem C2_utilization_bounds_witness :
    (0 ≤ calculate_cpu_percent ⟨100, 0, 50, 850, 0, 0, 0, 0⟩ ⟨150, 0, 80, 870, 0, 0, 0, 0⟩ ∧
      calculate_cpu_percent ⟨100, 0, 50, 850, 0, 0, 0, 0⟩ ⟨150, 0, 80, 870, 0, 0, 0, 0⟩ ≤ 100) ∧
    calculate_cpu_percent ⟨100, 0, 50, 850, 0, 0, 0, 0⟩ ⟨200, 0, 80, 850, 0, 0, 0, 0⟩ = 100 := by
  constructor
  · exact C2_utilization_bounds.1 _ _ (by norm_num [ProcStat.total])
  · exact C2_utilization_bounds.2 _ _ rfl (by norm_num [ProcStat.total])

/-- C3 counterexample: on non-numeric content the read panics (the
`unwrap_or_else(… panic!)` arm), it does not return a typed `ParseError`. -/
theorem C3_counterexample :
    read_int fsParseBad cpu0 "cpufreq/scaling_max_freq" =
      Res.panicked ("Could not parse " ++ "cpufreq/scaling_max_freq") ∧
    (read_int fsParseBad cpu0 "cpufreq/scaling_max_freq").isErr = false := by
  constructor <;> decide

/-- C3 amended: a numeric read whose content (after popping the last
character) is not a valid base-10 `i32` panics with a "Could not parse"
message naming the sub-path, for both `read_int` and `read_temp` (when the
derived thermal path exists and opens). -/
theorem C3_parse_failure_panics :
    (∀ (fs : FS) (cpu : CPU) (sub_path content : String),
        fs.openFile (cpu_info_path cpu.name sub_path) = .ok content →
        parseI32 (popLast content) = none →
        read_int fs cpu sub_path = .panicked ("Could not parse " ++ sub_path)) ∧
    (∀ (fs : FS) (cpu : CPU) (sub_path content : String),
        fs.pathPresent (thermal_info_path cpu.name sub_path) = true →
        fs.openFile (thermal_info_path cpu.name sub_path) = .ok content →
        parseI32 (popLast content) = none →
        read_temp fs cpu sub_path = .panicked ("Could not parse " ++ sub_path)) := by
  constructor
  · intro fs cpu sub_path content hopen hparse
    simp [read_int, hopen, hparse]
  · intro fs cpu sub_path content hpresent hopen hparse
    simp [read_temp, hpresent, hopen, hparse]

/-- Witness for the amended C3 on the "abc\n" environment. -/
theorem C3_parse_failure_panics_witness :
    read_int fsParseBad cpu0 "cpufreq/scaling_max_freq" =
      Res.panicked ("Could not parse " ++ "cpufreq/scaling_max_freq") ∧
    read_temp fsParseBad cpu0 "temp" = Res.panicked ("Could not parse " ++ "temp") := by
  constructor
  · exact C3_parse_failure_panics.1 fsParseBad cpu0 "cpufreq/scaling_max_freq" "abc\n" rfl
      (by decide)
  · exact C3_parse_failure_panics.2 fsParseBad cpu0 "temp" "abc\n" rfl rfl (by decide)

/-- C4 counterexample: when the path cannot be opened, `read_int` panics
(the `.unwrap()` after `File::open`); it does not return a typed `IoError`. -/
theorem C4_counterexample :
    read_int fsNoFile cpu0 "cpufreq/scaling_max_freq" =
      Res.panicked "No such file or directory (os error 2)" ∧
    (read_int fsNoFile cpu0 "cpufreq/scaling_max_freq").isErr = false := by
  constructor <;> decide

/-- C4 amended: `write_value` fails with an `IoError` carrying the
underlying OS error when `File::create` fails or the kernel rejects the
write, while `read_int` and `read_str` panic (not a typed error) when the
path cannot be opened. -/
theorem C4_io_failure_behaviour :
    (∀ (fs : FS) (cpu : CPU) (v : WritableValue) (e : String),
        fs.createFile (cpu_info_path cpu.name (write_sub_path v)) = .error e →
        write_value fs cpu v = .err (.ioError e)) ∧
    (∀ (fs : FS) (cpu : CPU) (v : WritableValue) (e : String),
        fs.createFile (cpu_info_path cpu.name (write_sub_path v)) = .ok () →
        fs.writeFile (cpu_info_path cpu.name (write_sub_path v)) (write_payload cpu v) =
          .error e →
        write_value fs cpu v = .err (.ioError e)) ∧
    (∀ (fs : FS) (cpu : CPU) (sub_path e : String),
        fs.openFile (cpu_info_path cpu.name sub_path) = .error e →
        read_int fs cpu sub_path = .panicked e) ∧
    (∀ (fs : FS) (cpu : CPU) (sub_path e : String),
        fs.openFile (cpu_info_path cpu.name sub_path) = .error e →
        read_str fs cpu sub_path = .panicked e) := by
  refine ⟨?_, ?_, ?_, ?_⟩
  · intro fs cpu v e hc
    simp [write_value, hc]
  · intro fs cpu v e hc hw
    simp [write_value, hc, hw]
  · intro fs cpu sub_path e hopen
    simp [read_int, hopen]
  · intro fs cpu sub_path e hopen
    simp [read_str, hopen]

/-- Witness for the amended C4 on concrete failing environments. -/
theorem C4_io_failure_behaviour_witness :
    write_value fsNoFile cpu0 WritableValue.Max =
      Res.err (Error.ioError "Permission denied (os error 13)") ∧
    write_value fsWriteRejected cpu0 WritableValue.Gov =
      Res.err (Error.ioError "Invalid argument (os error 22)") ∧
    read_int fsNoFile cpu0 "cpufreq/scaling_cur_freq" =
      Res.panicked "No such file or directory (os error 2)" ∧
    read_str fsNoFile cpu0 "cpufreq/scaling_governor" =
      Res.panicked "No such file or directory (os error 2)" := by
  refine ⟨?_, ?_, ?_, ?_⟩
  · exact C4_io_failure_behaviour.1 fsNoFile cpu0 WritableValue.Max _ rfl
  · exact C4_io_failure_behaviour.2.1 fsWriteRejected cpu0 WritableValue.Gov _ rfl rfl
  · exact C4_io_failure_behaviour.2.2.1 fsNoFile cpu0 "cpufreq/scaling_cur_freq" _ rfl
  · exact C4_io_failure_behaviour.2.2.2 fsNoFile cpu0 "cpufreq/scaling_governor" _ rfl

/-- C5: a temperature read whose derived thermal-zone path (the entity name
with the "cpu" pattern replaced by "thermal_zone") does not exist returns
the sentinel −1 as a successful result. -/
theorem C5_missing_thermal_zone (fs : FS) (cpu : CPU) (sub_path : String)
    (h : fs.pathPresent (thermal_info_path cpu.name sub_path) = false) :
    read_temp fs cpu sub_path = .ok (-1) := by
  simp [read_temp, h]

/-- Witness for C5: for "cpu0" the derived path is the thermal_zone0
sibling, and when it is absent the read succeeds with −1. -/
theorem C5_missing_thermal_zone_witness :
    thermal_info_path "cpu0" "temp" = "/sys/class/thermal/thermal_zone0/temp" ∧
    fsNoFile.pathPresent (thermal_info_path "cpu0" "temp") = false ∧
    read_temp fsNoFile cpu0 "temp" = Res.ok (-1) := by
  refine ⟨by decide, rfl, C5_missing_thermal_zone fsNoFile cpu0 "temp" rfl⟩


/-- C7: the setters assign the in-memory field before writing through, so a
failed write leaves the field holding the new value. -/
theorem C7_set_write_after_assign (fs : FS) (cpu : CPU) (v : Int) (g : String) (e : Error) :
    ((set_max fs cpu v).1 = .err e → (set_max fs cpu v).2.max_freq = v) ∧
    ((set_min fs cpu v).1 = .err e → (set_min fs cpu v).2.min_freq = v) ∧
    ((set_gov fs cpu g).1 = .err e → (set_gov fs cpu g).2.gov = g) := by
  refine ⟨?_, ?_, ?_⟩
  · intro _
    cases hw : write_value fs { cpu with max_freq := v } WritableValue.Max <;>
      simp [set_max, hw]
  · intro _
    cases hw : write_value fs { cpu with min_freq := v } WritableValue.Min <;>
      simp [set_min, hw]
  · intro _
    cases hw : write_value fs { cpu with gov := g } WritableValue.Gov <;>
      simp [set_gov, hw]

/-- Witness for C7: on an environment where `File::create` is denied, the
failed setters leave the new values in memory. -/
theorem C7_set_write_after_assign_witness :
    (set_max fsNoFile cpu0 42).2.max_freq = 42 ∧
    (set_min fsNoFile cpu0 42).2.min_freq = 42 ∧
    (set_gov fsNoFile cpu0 "performance").2.gov = "performance" := by
  refine ⟨?_, ?_, ?_⟩
  · exact (C7_set_write_after_assign fsNoFile cpu0 42 "performance"
      (.ioError "Permission denied (os error 13)")).1 (by decide)
  · exact (C7_set_write_after_assign fsNoFile cpu0 42 "performance"
      (.ioError "Permission denied (os error 13)")).2.1 (by decide)
  · exact (C7_set_write_after_assign fsNoFile cpu0 42 "performance"
      (.ioError "Permission denied (os error 13)")).2.2 (by decide)

/-- C6: `update` refreshes all fields in order; an error from the
temperature read surfaces while the already-refreshed frequency fields keep
their newly read values, and a governor read failure (which panics, since
`read_str` unwraps) likewise propagates after the frequency and temperature
fields were refreshed — no rollback in either case. -/
theorem C6_update_no_rollback (fs : FS) (cpu : CPU) (m n c t : Int) (e : Error) (msg : String) :
    (read_int fs cpu "cpufreq/scaling_max_freq" = .ok m →
      read_int fs cpu "cpufreq/scaling_min_freq" = .ok n →
      read_int fs cpu "cpufreq/scaling_cur_freq" = .ok c →
      read_temp fs cpu "temp" = .err e →
      update fs cpu = (.err e, { cpu with max_freq := m, min_freq := n, cur_freq := c })) ∧
    (read_int fs cpu "cpufreq/scaling_max_freq" = .ok m →
      read_int fs cpu "cpufreq/scaling_min_freq" = .ok n →
      read_int fs cpu "cpufreq/scaling_cur_freq" = .ok c →
      read_temp fs cpu "temp" = .ok t →
      read_str fs cpu "cpufreq/scaling_governor" = .panicked msg →
      update fs cpu = (.panicked msg, { cpu with max_freq := m, min_freq := n, cur_freq := c, cur_temp := t })) := by
  constructor
  · intro h1 h2 h3 h4
    have e1 : get_max fs cpu = (.ok (), { cpu with max_freq := m }) := by
      simp [get_max, h1]
    have r2 : read_int fs { cpu with max_freq := m } "cpufreq/scaling_min_freq" = .ok n := h2
    have e2 : get_min fs { cpu with max_freq := m } = (.ok (), { cpu with max_freq := m, min_freq := n }) := by
      simp [get_min, r2]
    have r3 : read_int fs { cpu with max_freq := m, min_freq := n } "cpufreq/scaling_cur_freq" = .ok c := h3
    have e3 : get_cur fs { cpu with max_freq := m, min_freq := n } = (.ok (), { cpu with max_freq := m, min_freq := n, cur_freq := c }) := by
      simp [get_cur, r3]
    have r4 : read_temp fs { cpu with max_freq := m, min_freq := n, cur_freq := c } "temp" = .err e := h4
    have e4 : get_temp fs { cpu with max_freq := m, min_freq := n, cur_freq := c } = (.err e, { cpu with max_freq := m, min_freq := n, cur_freq := c }) := by
      simp [get_temp, r4]
    simp [update, andThen, e1, e2, e3, e4]
  · intro h1 h2 h3 h4 h5
    have e1 : get_max fs cpu = (.ok (), { cpu with max_freq := m }) := by
      simp [get_max, h1]
    have r2 : read_int fs { cpu with max_freq := m } "cpufreq/scaling_min_freq" = .ok n := h2
    have e2 : get_min fs { cpu with max_freq := m } = (.ok (), { cpu with max_freq := m, min_freq := n }) := by
      simp [get_min, r2]
    have r3 : read_int fs { cpu with max_freq := m, min_freq := n } "cpufreq/scaling_cur_freq" = .ok c := h3
    have e3 : get_cur fs { cpu with max_freq := m, min_freq := n } = (.ok (), { cpu with max_freq := m, min_freq := n, cur_freq := c }) := by
      simp [get_cur, r3]
    have r4 : read_temp fs { cpu with max_freq := m, min_freq := n, cur_freq := c } "temp" = .ok t := h4
    have e4 : get_temp fs { cpu with max_freq := m, min_freq := n, cur_freq := c } = (.ok (), { cpu with max_freq := m, min_freq := n, cur_freq := c, cur_temp := t }) := by
      simp [get_temp, r4]
    have r5 : read_str fs { cpu with max_freq := m, min_freq := n, cur_freq := c, cur_temp := t } "cpufreq/scaling_governor" = .panicked msg := h5
    have e5 : get_gov fs { cpu with max_freq := m, min_freq := n, cur_freq := c, cur_temp := t } = (.panicked msg, { cpu with max_freq := m, min_freq := n, cur_freq := c, cur_temp := t }) := by
      simp [get_gov, r5]
    simp [update, andThen, e1, e2, e3, e4, e5]

/-- Witness for C6: a failing temperature open surfaces the typed error and
a failing governor open surfaces the panic, both with the frequency fields
already holding the newly read values. -/
theorem C6_update_no_rollback_witness :
    update fsTempErr cpu0 = (.err (.ioError "Device or resource busy (os error 16)"), { cpu0 with max_freq := 1000000, min_freq := 1000000, cur_freq := 1000000 }) ∧
    update fsGovErr cpu0 = (.panicked "Input output error (os error 5)", { cpu0 with max_freq := 42, min_freq := 42, cur_freq := 42, cur_temp := 42 }) := by
  constructor
  · exact (C6_update_no_rollback fsTempErr cpu0 1000000 1000000 1000000 0 (.ioError "Device or resource busy (os error 16)") "").1 (by decide) (by decide) (by decide) (by decide)
  · exact (C6_update_no_rollback fsGovErr cpu0 42 42 42 42 (.ioError "") "Input output error (os error 5)").2 (by decide) (by decide) (by decide) (by decide) (by decide)

/-- C8 counterexample: content with no trailing newline is not returned
unchanged — `pop` removes the last character unconditionally, so "abc"
comes back as "ab". -/
theorem C8_counterexample :
    read_str fsNoNewline cpu0 "cpufreq/scaling_governor" = Res.ok "ab" ∧
    read_str fsNoNewline cpu0 "cpufreq/scaling_governor" ≠ Res.ok "abc" := by
  constructor <;> decide

/-- C8 amended: a read returns the content with its final character removed
(the trailing newline whenever one is present), and a write outputs exactly
the value's string representation with no newline appended. -/
theorem C8_pop_and_write_payload :
    (∀ (fs : FS) (cpu : CPU) (sub_path content : String),
        fs.openFile (cpu_info_path cpu.name sub_path) = .ok content →
        read_str fs cpu sub_path = .ok (popLast content)) ∧
    (∀ (fs : FS) (cpu : CPU) (sub_path content : String) (k : Int),
        fs.openFile (cpu_info_path cpu.name sub_path) = .ok content →
        parseI32 (popLast content) = some k →
        read_int fs cpu sub_path = .ok k) ∧
    (∀ (fs : FS) (cpu : CPU) (v : WritableValue),
        fs.createFile (cpu_info_path cpu.name (write_sub_path v)) = .ok () →
        fs.writeFile (cpu_info_path cpu.name (write_sub_path v)) (write_payload cpu v) = .ok () →
        write_value fs cpu v = .ok ()) ∧
    (∀ cpu : CPU,
        write_payload cpu WritableValue.Max = toString cpu.max_freq ∧
        write_payload cpu WritableValue.Min = toString cpu.min_freq ∧
        write_payload cpu WritableValue.Gov = cpu.gov) := by
  refine ⟨?_, ?_, ?_, ?_⟩
  · intro fs cpu sub_path content hopen
    simp [read_str, hopen]
  · intro fs cpu sub_path content k hopen hparse
    simp [read_int, hopen, hparse]
  · intro fs cpu v hc hw
    simp [write_value, hc, hw]
  · intro cpu
    exact ⟨rfl, rfl, rfl⟩

/-- Witness for the amended C8 on the healthy environment. -/
theorem C8_pop_and_write_payload_witness :
    read_str fsGood cpu0 "cpufreq/scaling_governor" = Res.ok "1000000" ∧
    read_int fsGood cpu0 "cpufreq/scaling_max_freq" = Res.ok 1000000 ∧
    write_value fsGood cpu0 WritableValue.Max = Res.ok () := by
  refine ⟨?_, ?_, ?_⟩
  · exact C8_pop_and_write_payload.1 fsGood cpu0 "cpufreq/scaling_governor" "1000000\n" rfl
  · exact C8_pop_and_write_payload.2.1 fsGood cpu0 "cpufreq/scaling_max_freq" "1000000\n"
      1000000 rfl (by decide)
  · exact C8_pop_and_write_payload.2.2.1 fsGood cpu0 WritableValue.Max rfl rfl

/-- C9: `init_cpu` is `self.update()?; Ok(())`, which produces exactly the
same result and the same resulting entity state as `update` itself. -/
theorem C9_init_cpu_equiv_update (fs : FS) (cpu : CPU) : init_cpu fs cpu = update fs cpu := by
  unfold init_cpu
  rcases h : update fs cpu with ⟨r, c⟩
  cases r with
  | ok u => cases u; rfl
  | err e => rfl
  | panicked m => rfl

/-- C10: frame conditions — each setter changes only its own field,
`update_usage` changes only `cur_usage` and always succeeds, and `name` and
`number` are modified by no operation (the full `update` included). -/
theorem C10_frame_conditions (fs : FS) (cpu : CPU) (v : Int) (g : String) (lp cp : ProcStat) :
    ((set_max fs cpu v).2.name = cpu.name ∧ (set_max fs cpu v).2.number = cpu.number ∧
      (set_max fs cpu v).2.min_freq = cpu.min_freq ∧ (set_max fs cpu v).2.cur_freq = cpu.cur_freq ∧
      (set_max fs cpu v).2.cur_temp = cpu.cur_temp ∧ (set_max fs cpu v).2.cur_usage = cpu.cur_usage ∧
      (set_max fs cpu v).2.gov = cpu.gov) ∧
    ((set_min fs cpu v).2.name = cpu.name ∧ (set_min fs cpu v).2.number = cpu.number ∧
      (set_min fs cpu v).2.max_freq = cpu.max_freq ∧ (set_min fs cpu v).2.cur_freq = cpu.cur_freq ∧
      (set_min fs cpu v).2.cur_temp = cpu.cur_temp ∧ (set_min fs cpu v).2.cur_usage = cpu.cur_usage ∧
      (set_min fs cpu v).2.gov = cpu.gov) ∧
    ((set_gov fs cpu g).2.name = cpu.name ∧ (set_gov fs cpu g).2.number = cpu.number ∧
      (set_gov fs cpu g).2.max_freq = cpu.max_freq ∧ (set_gov fs cpu g).2.min_freq = cpu.min_freq ∧
      (set_gov fs cpu g).2.cur_freq = cpu.cur_freq ∧ (set_gov fs cpu g).2.cur_temp = cpu.cur_temp ∧
      (set_gov fs cpu g).2.cur_usage = cpu.cur_usage) ∧
    ((update_usage cpu lp cp).1 = Res.ok () ∧
      (update_usage cpu lp cp).2.name = cpu.name ∧ (update_usage cpu lp cp).2.number = cpu.number ∧
      (update_usage cpu lp cp).2.max_freq = cpu.max_freq ∧ (update_usage cpu lp cp).2.min_freq = cpu.min_freq ∧
      (update_usage cpu lp cp).2.cur_freq = cpu.cur_freq ∧ (update_usage cpu lp cp).2.cur_temp = cpu.cur_temp ∧
      (update_usage cpu lp cp).2.gov = cpu.gov) ∧
    ((update fs cpu).2.name = cpu.name ∧ (update fs cpu).2.number = cpu.number) := by
  refine ⟨?_, ?_, ?_, ?_, ?_⟩
  · cases hw : write_value fs { cpu with max_freq := v } WritableValue.Max <;>
      simp [set_max, hw]
  · cases hw : write_value fs { cpu with min_freq := v } WritableValue.Min <;>
      simp [set_min, hw]
  · cases hw : write_value fs { cpu with gov := g } WritableValue.Gov <;>
      simp [set_gov, hw]
  · simp [update_usage]
  · unfold update
    apply andThen_pres (fun x => x.name = cpu.name ∧ x.number = cpu.number)
    · apply andThen_pres (fun x => x.name = cpu.name ∧ x.number = cpu.number)
      · apply andThen_pres (fun x => x.name = cpu.name ∧ x.number = cpu.number)
        · apply andThen_pres (fun x => x.name = cpu.name ∧ x.number = cpu.number)
          · exact get_max_keeps fs cpu
          · intro x hx
            exact ⟨(get_min_keeps fs x).1.trans hx.1, (get_min_keeps fs x).2.trans hx.2⟩
        · intro x hx
          exact ⟨(get_cur_keeps fs x).1.trans hx.1, (get_cur_keeps fs x).2.trans hx.2⟩
      · intro x hx
        exact ⟨(get_temp_keeps fs x).1.trans hx.1, (get_temp_keeps fs x).2.trans hx.2⟩
    · intro x hx
      exact ⟨(get_gov_keeps fs x).1.trans hx.1, (get_gov_keeps fs x).2.trans hx.2⟩
